import Mathlib

/-!
Verification of the session/message synchronization and conversational-state
core of the Geopolitical Analyzer front end (src/App.js).

Strings are modelled as sequences of characters (List Char under String);
the JavaScript operations used by the code (trim, split on a character
class, regex lead-word stripping, charAt/slice, substring) are embedded as
executable functions over List Char below, faithful to their behaviour on
the character sequences the application manipulates.
-/

namespace GeoCore

/-- Whitespace as recognized by the JavaScript string functions used in
App.js (trim, the regex class backslash-s), restricted to the ASCII
whitespace characters. -/
def jsIsWhitespace (c : Char) : Bool :=
  c = ' ' || c = '\t' || c = '\n' || c = '\r' || c = '\x0b' || c = '\x0c'

/-- JavaScript String.prototype.trim: drop whitespace from both ends. -/
def jsTrim (l : List Char) : List Char :=
  ((l.dropWhile jsIsWhitespace).reverse.dropWhile jsIsWhitespace).reverse

/-- The sentence terminators of the character class in
cleanInput.split(patternOfDotBangQuestion) at App.js line 182. -/
def isTerminatorChar (c : Char) : Bool :=
  c = '.' || c = '!' || c = '?'

/-- JavaScript String.prototype.split on the terminator character class:
every terminator ends the current segment (terminators are not kept).
Splitting the empty sequence yields one empty segment, as in JavaScript. -/
def splitOnTerminators (l : List Char) : List (List Char) :=
  l.foldr
    (fun c acc =>
      if isTerminatorChar c then [] :: acc
      else
        match acc with
        | h :: t => (c :: h) :: t
        | [] => [[c]])
    [[]]

/-- The closed set of lead words of the regex at App.js line 186, in the
order the alternation lists them. -/
def leadWords : List (List Char) :=
  ["what", "who", "when", "where", "why", "how",
   "explain", "describe", "analyze", "discuss"].map String.data

/-- Does the anchored, case-insensitive pattern word-then-whitespace match
at the start of the sequence? (The regex requires at least one whitespace
character after the word.) -/
def matchesLeadWord (w : List Char) (l : List Char) : Bool :=
  ((l.take w.length).map Char.toLower == w) &&
    (match l.drop w.length with
     | c :: _ => jsIsWhitespace c
     | [] => false)

/-- firstSentence.replace(anchored lead-word pattern, empty string) at
App.js line 186: remove the first matching lead word together with the
(greedy) run of whitespace that follows it. -/
def stripLeadWord (l : List Char) : List Char :=
  match leadWords.find? (fun w => matchesLeadWord w l) with
  | some w => (l.drop w.length).dropWhile jsIsWhitespace
  | none => l

/-- firstSentence.replace(global question-mark pattern, empty string) at
App.js line 187. -/
def removeQuestionMarks (l : List Char) : List Char :=
  l.filter (fun c => c != '?')

/-- firstSentence.charAt(0).toUpperCase() + firstSentence.slice(1) at
App.js line 190; on the empty sequence this is the empty sequence. -/
def capitalizeFirst : List Char → List Char
  | [] => []
  | c :: rest => Char.toUpper c :: rest

/-- The processed first segment of generateSessionTitle (App.js lines
180-187): trim, split on sentence terminators, take the first segment
(falling back to the whole trimmed input when it is empty, the
sentences-zero-or-cleanInput step at line 183), strip the lead word, and
remove question marks. -/
def cleanedSegment (userInput : String) : List Char :=
  let cleanInput := jsTrim userInput.data
  let firstSentence :=
    match splitOnTerminators cleanInput with
    | [] => cleanInput
    | h :: _ => if h = [] then cleanInput else h
  removeQuestionMarks (stripLeadWord firstSentence)

/-- generateSessionTitle (App.js lines 175-194): placeholder for blank
input; otherwise capitalize the processed first segment when it has at
most 40 characters, else truncate to 37 characters, trim, and append the
three-dot ellipsis marker. -/
def generateSessionTitle (userInput : String) : String :=
  if jsTrim userInput.data = [] then "New Analysis"
  else
    let firstSentence := cleanedSegment userInput
    if firstSentence.length ≤ 40 then String.mk (capitalizeFirst firstSentence)
    else String.mk (jsTrim (firstSentence.take 37)) ++ "..."

/-- A source citation attached to an assistant message
({title, url} objects in the sources array). -/
structure Citation where
  title : String
  url : String
deriving DecidableEq, Repr

/-- One persisted chat turn: the message documents written by getAnalysis
(App.js lines 372-374, 401-406, 417-419). The sources field is present
only on successful assistant turns; createdAt is server-assigned and not
used by the client logic, so it is not modelled on messages. -/
structure ChatMsg where
  sender : String
  text : String
  sources : Option (List Citation)
deriving DecidableEq, Repr

/-- A session document: title, pinned flag, creation timestamp (none while
the server timestamp of an optimistic local write is unresolved,
corresponding to createdAt null in a snapshot), and its ordered message
subcollection. toMillis values of server-assigned timestamps are
non-negative epoch milliseconds, so the timestamp is a Nat. -/
structure Session where
  title : String
  isPinned : Bool
  createdAt : Option Nat
  msgs : List ChatMsg
deriving DecidableEq, Repr

/-- createdAt?.toMillis() || 0 (App.js line 466): an unresolved timestamp
contributes the sentinel 0. -/
def sessionMillis (s : Session) : Nat :=
  s.createdAt.getD 0

/-- The comparator of sortedSessions (App.js lines 463-467). -/
def sessionCmp (a b : Session) : Int :=
  if a.isPinned && !b.isPinned then -1
  else if !a.isPinned && b.isPinned then 1
  else (sessionMillis b : Int) - (sessionMillis a : Int)

/-- The boolean order induced by the comparator: a may come before b. -/
def sessionLe (a b : Session) : Bool :=
  decide (sessionCmp a b ≤ 0)

/-- sortedSessions (App.js line 463): a stable sort of the session list by
the comparator (Array.prototype.sort is stable). -/
def sortedSessions (l : List Session) : List Session :=
  l.mergeSort sessionLe

/-- Outcome of the remote analysis call (App.js lines 382-396): a 2xx
response with answer and optional sources; a non-2xx response whose body
may carry a detail string (none when the body is not parseable JSON and
the status text is absent); or a transport-level rejection carrying the
thrown message (this also covers a malformed success body). -/
inductive FetchOutcome where
  | ok (answer : String) (sources : Option (List Citation))
  | httpError (detail : Option String) (status : Nat)
  | transportError (msg : String)
deriving DecidableEq, Repr

/-- errorData.detail or the fallback text (App.js lines 392-393): a falsy
detail (absent or empty) falls back to the status message. -/
def analysisFailMessage (detail : Option String) (status : Nat) : String :=
  let d := detail.getD ""
  if d = "" then "An API error occurred: " ++ toString status else d

/-- The outcomes the remote store and the remote service hand back to one
run of getAnalysis: for each store write, none means the write commits and
some m means it throws with message m. -/
structure StoreEnv where
  userWrite : Option String
  fetchOutcome : FetchOutcome
  botWrite : Option String
  titleWrite : Option String
  errWrite : Option String
deriving DecidableEq, Repr

/-- External calls issued by the core, in issue order (a write is recorded
whether or not the store commits it). -/
inductive Action where
  | createSessionDoc (title : String)
  | addUserTurn (text : String)
  | callAnalyze (queryText : String) (history : List (String × String))
  | addBotTurn (text : String) (sources : Option (List Citation))
  | setTitle (title : String)
  | addErrorTurn (text : String)
deriving DecidableEq, Repr

/-- Result of one run of getAnalysis: the session document after the run
(none only when the guard at App.js line 367 returned early on a missing
session), the loading flag, the transient error string, and the ordered
trace of external calls issued. -/
structure GAResult where
  session : Option Session
  isLoading : Bool
  error : String
  trace : List Action
deriving DecidableEq, Repr

/-- Append one message document to a session's message subcollection. -/
def appendMsg (s : Session) (m : ChatMsg) : Session :=
  { s with msgs := s.msgs ++ [m] }

/-- The catch block of getAnalysis (App.js lines 412-422) followed by the
finally block (lines 423-425): set the transient error, attempt to
persist a synthetic assistant turn carrying the failure text (a failure of
that secondary write is only logged), and clear the loading flag. -/
def catchPath (env : StoreEnv) (session : Session) (errorMsg : String)
    (trace : List Action) : GAResult :=
  let trace' := trace ++ [Action.addErrorTurn errorMsg]
  match env.errWrite with
  | none => ⟨some (appendMsg session ⟨"bot", errorMsg, none⟩), false, errorMsg, trace'⟩
  | some _ => ⟨some session, false, errorMsg, trace'⟩

/-- getAnalysis (App.js lines 366-426). Arguments: rm is the external
removeMarkdown collaborator; prior is the messages state captured by the
closure (the turns visible before this submission, used both for the
request history and the first-exchange check); isLoading0 and error0 are
the state left untouched by the early guard return. The store and service
outcomes come from env; every await that throws lands in catchPath with
the thrown message. -/
def getAnalysis (rm : String → String) (env : StoreEnv) (user? : Option Nat)
    (queryText : String) (prior : List ChatMsg) (isNewSession : Bool)
    (session? : Option Session) (isLoading0 : Bool) (error0 : String) : GAResult :=
  match user?, session? with
  | some _, some session =>
    let trace0 := [Action.addUserTurn queryText]
    match env.userWrite with
    | some m =>
      catchPath env session ("Sorry, the analysis failed: " ++ m) trace0
    | none =>
      let session1 := appendMsg session ⟨"user", queryText, none⟩
      let history := prior.map (fun msg => (msg.sender, msg.text))
      let trace1 := trace0 ++ [Action.callAnalyze queryText history]
      match env.fetchOutcome with
      | FetchOutcome.httpError detail status =>
        catchPath env session1
          ("Sorry, the analysis failed: " ++ analysisFailMessage detail status) trace1
      | FetchOutcome.transportError m =>
        catchPath env session1 ("Sorry, the analysis failed: " ++ m) trace1
      | FetchOutcome.ok answer sources =>
        let cleanAnswer := rm answer
        let trace2 := trace1 ++ [Action.addBotTurn cleanAnswer sources]
        match env.botWrite with
        | some m =>
          catchPath env session1 ("Sorry, the analysis failed: " ++ m) trace2
        | none =>
          let session2 := appendMsg session1 ⟨"bot", cleanAnswer, sources⟩
          if isNewSession || prior.length == 0 then
            let newTitle := generateSessionTitle queryText
            let trace3 := trace2 ++ [Action.setTitle newTitle]
            match env.titleWrite with
            | some m =>
              catchPath env session2 ("Sorry, the analysis failed: " ++ m) trace3
            | none =>
              ⟨some { session2 with title := newTitle }, false, "", trace3⟩
          else ⟨some session2, false, "", trace2⟩
  | _, _ => ⟨session?, isLoading0, error0, []⟩

/-!
Realtime sync machine. This models the identity/session subscription
lifecycle of ChatApplication: the auth listener (App.js lines 216-225),
the sessions-subscription effect keyed on the user (lines 236-253), and
the messages-subscription effect keyed on the current session and user
(lines 255-274). React runs an effect's cleanup (here: unsubscribe)
before re-running its body whenever a dependency changes, so each effect
re-run replaces the active subscription; the store delivers a snapshot
callback only while its subscription is active, so a callback whose
subscription has been released matches no active scope and is a no-op.
Users and session ids are modelled as Nat; a message subscription scope is
the (user id, session id) pair of the subscribed collection.
-/

/-- The reactive state of ChatApplication that the subscription lifecycle
touches: the authenticated user, the selected session, the published
session and message lists, the active subscription scopes, and the
transient error string. -/
structure SyncState where
  user? : Option Nat
  currentSessionId : Option Nat
  sessions : List Session
  messages : List ChatMsg
  sessionsSub : Option Nat
  msgSub : Option (Nat × Nat)
  error : String
deriving DecidableEq, Repr

/-- Re-run of the messages effect (App.js lines 255-274): the cleanup
releases the previous subscription; with no current session or no user the
message view is cleared and nothing is subscribed, otherwise the messages
collection of the current scope is subscribed. -/
def msgEffect (st : SyncState) : SyncState :=
  match st.user?, st.currentSessionId with
  | some u, some sid => { st with msgSub := some (u, sid) }
  | _, _ => { st with msgSub := none, messages := [] }

/-- Re-run of the sessions effect (App.js lines 236-253): with no user the
session list is cleared, the selection is cleared, and nothing is
subscribed; otherwise the user's sessions collection is subscribed. -/
def sessionsEffect (st : SyncState) : SyncState :=
  match st.user? with
  | some u => { st with sessionsSub := some u }
  | none => { st with sessionsSub := none, sessions := [], currentSessionId := none }

/-- Events driving the subscription lifecycle: an identity change (the
onAuthStateChanged callback), a selection change (setCurrentSessionId from
a sidebar click, a session deletion, or a new-session creation), and the
snapshot and snapshot-error callbacks of the two subscriptions, each
tagged with the scope of the subscription that fired it. -/
inductive SyncEv where
  | authChange (u : Option Nat)
  | selectSession (sid : Option Nat)
  | msgSnapshot (scope : Nat × Nat) (docs : List ChatMsg)
  | msgSnapshotError (scope : Nat × Nat)
  | sessionsSnapshot (uid : Nat) (docs : List Session)
  | sessionsSnapshotError (uid : Nat)
deriving DecidableEq, Repr

/-- One step of the subscription machine. The auth callback resets the
selection and the message view (App.js lines 220-222) and both effects
re-run; a selection change re-runs only the messages effect; a snapshot
callback applies only when its scope is the active subscription (a
released subscription no longer delivers), and a subscription error keeps
the last good data and sets the error string (lines 247-250, 268-271). -/
def syncStep (e : SyncEv) (st : SyncState) : SyncState :=
  match e with
  | SyncEv.authChange u =>
    msgEffect (sessionsEffect
      { st with user? := u, currentSessionId := none, messages := [] })
  | SyncEv.selectSession sid => msgEffect { st with currentSessionId := sid }
  | SyncEv.msgSnapshot scope docs =>
    if st.msgSub = some scope then { st with messages := docs } else st
  | SyncEv.msgSnapshotError scope =>
    if st.msgSub = some scope then
      { st with error := "Failed to load messages for this session." }
    else st
  | SyncEv.sessionsSnapshot uid docs =>
    if st.sessionsSub = some uid then { st with sessions := docs } else st
  | SyncEv.sessionsSnapshotError uid =>
    if st.sessionsSub = some uid then
      { st with error := "Failed to load chat sessions" }
    else st

/-- Run a list of events left to right. -/
def runSync (st : SyncState) (evs : List SyncEv) : SyncState :=
  evs.foldl (fun s e => syncStep e s) st

/-- An event that changes the message-subscription scope: a selection
change or an identity change. -/
def isScopeSwitch (e : SyncEv) : Prop :=
  (∃ sid, e = SyncEv.selectSession sid) ∨ (∃ u, e = SyncEv.authChange u)

/-!
Submission loop machine. This models the submit path (handleSubmit,
App.js lines 428-455) together with the loading-flag lifecycle of the
exchange it launches: handleSubmit rejects a blank input or a submission
while isLoading is set; otherwise it resolves a session (creating one with
a generated title when none is selected) and launches getAnalysis, whose
synchronous prefix sets isLoading before its first await and whose finally
block clears it. A submit event runs the handler up to the launch of the
exchange; a complete event is the resumption that runs the remainder of
the exchange (the session-creation await is folded into the submit step,
so the machine's granularity is one submission to an existing current
session, the scenario of the single-flight property).
-/

/-- An exchange launched but not yet resolved: the submitted text, the
store and service outcomes it will encounter, whether the session was
created by this submission, and the messages closure it captured. -/
structure PendingExchange where
  input : String
  env : StoreEnv
  isNewSession : Bool
  prior : List ChatMsg
deriving DecidableEq, Repr

/-- The state the submit path touches: the user, the loading flag, the
transient error, the current session document (none when no session is
selected), the published message list, the in-flight exchange, and the
cumulative trace of issued external calls. -/
structure LoopState where
  user? : Option Nat
  isLoading : Bool
  error : String
  session? : Option Session
  messages : List ChatMsg
  pending : Option PendingExchange
  writes : List Action
deriving DecidableEq, Repr

/-- handleSubmit up to the launch of the exchange (App.js lines 428-455
plus the synchronous prefix of getAnalysis, lines 368-369): reject blank
input or an in-flight exchange; with no current session, create one whose
document already carries the title generated from the raw input (cenv none
means the create commits, some means it throws and the handler stops with
a recoverable error); then mark the exchange in flight. -/
def submitStep (input : String) (cenv : Option String) (env : StoreEnv)
    (st : LoopState) : LoopState :=
  if jsTrim input.data = [] || st.isLoading then st
  else
    match st.session? with
    | some _ =>
      { st with isLoading := true, error := "",
                pending := some ⟨input, env, false, st.messages⟩ }
    | none =>
      let initialTitle := generateSessionTitle input
      match cenv with
      | some _ =>
        { st with error := "Failed to create new chat session",
                  writes := st.writes ++ [Action.createSessionDoc initialTitle] }
      | none =>
        { st with session? := some ⟨initialTitle, false, none, []⟩,
                  isLoading := true, error := "",
                  pending := some ⟨input, env, true, st.messages⟩,
                  writes := st.writes ++ [Action.createSessionDoc initialTitle] }

/-- Resumption of the in-flight exchange: run the remainder of getAnalysis
against the captured submission and record its effects; a completion with
nothing in flight is a no-op. -/
def completeStep (rm : String → String) (st : LoopState) : LoopState :=
  match st.pending with
  | none => st
  | some p =>
    let res := getAnalysis rm p.env st.user? p.input p.prior p.isNewSession
      st.session? st.isLoading st.error
    { st with session? := res.session, isLoading := res.isLoading,
              error := res.error, pending := none,
              writes := st.writes ++ res.trace }

/-- Events of the submission loop: a user submission (carrying the input
text and the outcomes the store and service will hand back), and the
resumption of the in-flight exchange. -/
inductive LoopEv where
  | submit (input : String) (cenv : Option String) (env : StoreEnv)
  | complete
deriving Repr

/-- One step of the submission loop. -/
def loopStep (rm : String → String) (e : LoopEv) (st : LoopState) : LoopState :=
  match e with
  | LoopEv.submit input cenv env => submitStep input cenv env st
  | LoopEv.complete => completeStep rm st

/-- Run a list of loop events left to right. -/
def runLoop (rm : String → String) (st : LoopState) (evs : List LoopEv) : LoopState :=
  evs.foldl (fun s e => loopStep rm e s) st

/-!
Helper lemmas shared by the claim theorems.
-/

/-- A nonempty string built from a character list differs from the empty
string exactly when the list is nonempty. -/
theorem mk_eq_empty_iff (l : List Char) : String.mk l = "" ↔ l = [] := by
  constructor
  · intro h
    simpa using congrArg String.data h
  · rintro rfl
    rfl

/-- When the trimmed input is empty, the processed first segment is empty. -/
theorem cleanedSegment_of_trim_empty (s : String) (h : jsTrim s.data = []) :
    cleanedSegment s = [] := by
  unfold cleanedSegment
  rw [h]
  rfl

/-- Trimming never lengthens a character list. -/
theorem jsTrim_length_le (l : List Char) : (jsTrim l).length ≤ l.length := by
  unfold jsTrim
  have h1 := (List.dropWhile_sublist (l := l) (p := jsIsWhitespace)).length_le
  have h2 := (List.dropWhile_sublist
    (l := (l.dropWhile jsIsWhitespace).reverse) (p := jsIsWhitespace)).length_le
  simp only [List.length_reverse] at *
  omega

/-- The comparator order is transitive. -/
theorem sessionLe_trans (a b c : Session) (hab : sessionLe a b = true)
    (hbc : sessionLe b c = true) : sessionLe a c = true := by
  simp only [sessionLe, sessionCmp, decide_eq_true_eq] at *
  cases ha : a.isPinned <;> cases hb : b.isPinned <;> cases hc : c.isPinned <;>
    simp_all <;> omega

/-- The comparator order is total. -/
theorem sessionLe_total (a b : Session) :
    (sessionLe a b || sessionLe b a) = true := by
  simp only [sessionLe, sessionCmp, Bool.or_eq_true, decide_eq_true_eq]
  cases ha : a.isPinned <;> cases hb : b.isPinned <;> simp_all <;> omega

/-- What a comparator-ordered pair means: a pinned element never follows an
unpinned one, and inside one pin group the earlier element has the larger
resolved-or-sentinel timestamp. -/
theorem sessionLe_imp (a b : Session) (h : sessionLe a b = true) :
    (b.isPinned = true → a.isPinned = true)
      ∧ (a.isPinned = b.isPinned → sessionMillis b ≤ sessionMillis a) := by
  simp only [sessionLe, sessionCmp, decide_eq_true_eq] at h
  cases ha : a.isPinned <;> cases hb : b.isPinned <;> simp_all <;> omega

/-- The trace of the catch path is the attempted writes so far plus the
synthetic error-turn write. -/
theorem catchPath_trace (env : StoreEnv) (s : Session) (m : String) (t : List Action) :
    (catchPath env s m t).trace = t ++ [Action.addErrorTurn m] := by
  cases h : env.errWrite <;> simp [catchPath, h]

/-- The catch path surfaces the failure message as the transient error. -/
theorem catchPath_error (env : StoreEnv) (s : Session) (m : String) (t : List Action) :
    (catchPath env s m t).error = m := by
  cases h : env.errWrite <;> simp [catchPath, h]

/-- The catch path always releases the loading flag. -/
theorem catchPath_isLoading (env : StoreEnv) (s : Session) (m : String) (t : List Action) :
    (catchPath env s m t).isLoading = false := by
  cases h : env.errWrite <;> simp [catchPath, h]

/-- Whatever the store and service outcomes, an exchange that passes the
guard issues the user-turn write first. -/
theorem getAnalysis_trace_head (rm : String → String) (env : StoreEnv) (u : Nat)
    (queryText : String) (prior : List ChatMsg) (isNewSession : Bool) (s : Session)
    (isLoading0 : Bool) (error0 : String) :
    ∃ rest, (getAnalysis rm env (some u) queryText prior isNewSession (some s)
        isLoading0 error0).trace = Action.addUserTurn queryText :: rest := by
  cases hu : env.userWrite with
  | some m =>
    exact ⟨[Action.addErrorTurn ("Sorry, the analysis failed: " ++ m)],
      by simp [getAnalysis, hu, catchPath_trace]⟩
  | none =>
    cases hf : env.fetchOutcome with
    | httpError d st =>
      exact ⟨[Action.callAnalyze queryText (prior.map (fun msg => (msg.sender, msg.text))),
        Action.addErrorTurn ("Sorry, the analysis failed: " ++ analysisFailMessage d st)],
        by simp [getAnalysis, hu, hf, catchPath_trace]⟩
    | transportError m =>
      exact ⟨[Action.callAnalyze queryText (prior.map (fun msg => (msg.sender, msg.text))),
        Action.addErrorTurn ("Sorry, the analysis failed: " ++ m)],
        by simp [getAnalysis, hu, hf, catchPath_trace]⟩
    | ok ans src =>
      cases hb : env.botWrite with
      | some m =>
        exact ⟨[Action.callAnalyze queryText (prior.map (fun msg => (msg.sender, msg.text))),
          Action.addBotTurn (rm ans) src,
          Action.addErrorTurn ("Sorry, the analysis failed: " ++ m)],
          by simp [getAnalysis, hu, hf, hb, catchPath_trace]⟩
      | none =>
        by_cases hcond : (isNewSession || prior.length == 0) = true
        · cases ht : env.titleWrite with
          | some m =>
            exact ⟨[Action.callAnalyze queryText (prior.map (fun msg => (msg.sender, msg.text))),
              Action.addBotTurn (rm ans) src,
              Action.setTitle (generateSessionTitle queryText),
              Action.addErrorTurn ("Sorry, the analysis failed: " ++ m)],
              by simp [getAnalysis, hu, hf, hb, hcond, ht, catchPath_trace]⟩
          | none =>
            exact ⟨[Action.callAnalyze queryText (prior.map (fun msg => (msg.sender, msg.text))),
              Action.addBotTurn (rm ans) src,
              Action.setTitle (generateSessionTitle queryText)],
              by simp [getAnalysis, hu, hf, hb, hcond, ht, catchPath_trace]⟩
        · simp only [Bool.not_eq_true] at hcond
          exact ⟨[Action.callAnalyze queryText (prior.map (fun msg => (msg.sender, msg.text))),
            Action.addBotTurn (rm ans) src],
            by simp [getAnalysis, hu, hf, hb, hcond, catchPath_trace]⟩

/-- After any scope-changing event that does not select the old scope's
session, the active message subscription is not the old scope. -/
theorem msgSub_after_switch (A : Nat × Nat) (e : SyncEv) (st : SyncState)
    (hsw : isScopeSwitch e) (hne : e ≠ SyncEv.selectSession (some A.2)) :
    (syncStep e st).msgSub ≠ some A := by
  rcases hsw with ⟨sid, rfl⟩ | ⟨u, rfl⟩
  · cases sid with
    | none => cases hu : st.user? <;> simp [syncStep, msgEffect, hu]
    | some s =>
      have hs : s ≠ A.2 := by
        intro habs
        exact hne (by rw [habs])
      cases hu : st.user? with
      | none => simp [syncStep, msgEffect, hu]
      | some u =>
        simp only [syncStep, msgEffect, hu, ne_eq, Option.some.injEq]
        intro habs
        exact hs (congrArg Prod.snd habs)
  · cases u with
    | none => simp [syncStep, msgEffect, sessionsEffect]
    | some u => simp [syncStep, msgEffect, sessionsEffect]

/-- No event other than selecting the old scope's session can make the old
scope the active message subscription again. -/
theorem msgSub_preserved (A : Nat × Nat) (e : SyncEv) (st : SyncState)
    (h : st.msgSub ≠ some A) (hne : e ≠ SyncEv.selectSession (some A.2)) :
    (syncStep e st).msgSub ≠ some A := by
  cases e with
  | authChange u => exact msgSub_after_switch A _ st (Or.inr ⟨u, rfl⟩) hne
  | selectSession sid => exact msgSub_after_switch A _ st (Or.inl ⟨sid, rfl⟩) hne
  | msgSnapshot scope docs =>
    have hms : (syncStep (SyncEv.msgSnapshot scope docs) st).msgSub = st.msgSub := by
      by_cases hsc : st.msgSub = some scope <;> simp [syncStep, hsc]
    rw [hms]
    exact h
  | msgSnapshotError scope =>
    have hms : (syncStep (SyncEv.msgSnapshotError scope) st).msgSub = st.msgSub := by
      by_cases hsc : st.msgSub = some scope <;> simp [syncStep, hsc]
    rw [hms]
    exact h
  | sessionsSnapshot uid docs =>
    have hms : (syncStep (SyncEv.sessionsSnapshot uid docs) st).msgSub = st.msgSub := by
      by_cases hsc : st.sessionsSub = some uid <;> simp [syncStep, hsc]
    rw [hms]
    exact h
  | sessionsSnapshotError uid =>
    have hms : (syncStep (SyncEv.sessionsSnapshotError uid) st).msgSub = st.msgSub := by
      by_cases hsc : st.sessionsSub = some uid <;> simp [syncStep, hsc]
    rw [hms]
    exact h

/-- A snapshot callback from a scope that is not the active subscription
changes nothing. -/
theorem stale_snapshot_noop (A : Nat × Nat) (d : List ChatMsg) (st : SyncState)
    (h : st.msgSub ≠ some A) : syncStep (SyncEv.msgSnapshot A d) st = st := by
  simp [syncStep, h]

/-- Deleting a stale old-scope snapshot from any point of a run that never
reselects the old scope leaves the run unchanged. -/
theorem runSync_stale (A : Nat × Nat) (d : List ChatMsg) :
    ∀ (mid : List SyncEv) (st : SyncState) (post : List SyncEv),
    st.msgSub ≠ some A →
    (∀ e ∈ mid, e ≠ SyncEv.selectSession (some A.2)) →
    runSync st (mid ++ SyncEv.msgSnapshot A d :: post) = runSync st (mid ++ post)
  | [], st, post, h, _ => by
    simp only [List.nil_append, runSync, List.foldl_cons]
    rw [stale_snapshot_noop A d st h]
  | e :: mid, st, post, h, hmid => by
    simp only [List.cons_append, runSync, List.foldl_cons]
    exact runSync_stale A d mid (syncStep e st) post
      (msgSub_preserved A e st h (hmid e (List.mem_cons_self e mid)))
      (fun e' he' => hmid e' (List.mem_cons_of_mem e he'))

/-- A submission while an exchange is in flight is rejected unchanged. -/
theorem submitStep_of_isLoading (input : String) (cenv : Option String)
    (env : StoreEnv) (st : LoopState) (h : st.isLoading = true) :
    submitStep input cenv env st = st := by
  simp [submitStep, h]

/-- An accepted submission to an existing current session marks the
exchange in flight before anything else can run. -/
theorem submitStep_starts_exchange (input : String) (cenv : Option String)
    (env : StoreEnv) (st : LoopState) (s : Session)
    (h1 : jsTrim input.data ≠ []) (hload : st.isLoading = false)
    (hsess : st.session? = some s) :
    (submitStep input cenv env st).isLoading = true := by
  simp [submitStep, h1, hload, hsess]

/-!
Claim theorems.
-/

/-- Claim C1: after a switch of the current scope away from A (selecting
another session, clearing the selection, or an identity change), a
message-collection snapshot callback from the old scope A that arrives at
any later point of a run that never reselects A is a no-op: the run with
the stale callback equals the run without it, so no message belonging to A
is ever appended to the new scope's displayed message list. -/
theorem stale_scope_callback_is_noop (st : SyncState) (A : Nat × Nat) (sw : SyncEv)
    (mid post : List SyncEv) (d : List ChatMsg)
    (hsw : isScopeSwitch sw)
    (hswA : sw ≠ SyncEv.selectSession (some A.2))
    (hmid : ∀ e ∈ mid, e ≠ SyncEv.selectSession (some A.2)) :
    runSync st (sw :: (mid ++ SyncEv.msgSnapshot A d :: post))
      = runSync st (sw :: (mid ++ post)) := by
  simp only [runSync, List.foldl_cons]
  exact runSync_stale A d mid (syncStep sw st) post
    (msgSub_after_switch A sw st hsw hswA) hmid

/-- Witness for C1: a concrete state subscribed to scope (0, 1) switches
to session 2; a late snapshot from (0, 1) delivered after an unrelated
sessions snapshot is discarded. -/
theorem stale_scope_callback_is_noop_witness :
    isScopeSwitch (SyncEv.selectSession (some 2))
    ∧ SyncEv.selectSession (some 2) ≠ SyncEv.selectSession (some ((0, 1) : Nat × Nat).2)
    ∧ (∀ e ∈ [SyncEv.sessionsSnapshot 0 []],
        e ≠ SyncEv.selectSession (some ((0, 1) : Nat × Nat).2))
    ∧ runSync ⟨some 0, some 1, [], [], some 0, some (0, 1), ""⟩
        (SyncEv.selectSession (some 2) :: ([SyncEv.sessionsSnapshot 0 []]
          ++ SyncEv.msgSnapshot (0, 1) [⟨"user", "late message", none⟩] :: []))
      = runSync ⟨some 0, some 1, [], [], some 0, some (0, 1), ""⟩
        (SyncEv.selectSession (some 2) :: ([SyncEv.sessionsSnapshot 0 []] ++ [])) :=
  ⟨Or.inl ⟨some 2, rfl⟩, by decide, by decide,
    stale_scope_callback_is_noop ⟨some 0, some 1, [], [], some 0, some (0, 1), ""⟩
      (0, 1) (SyncEv.selectSession (some 2)) [SyncEv.sessionsSnapshot 0 []] []
      [⟨"user", "late message", none⟩] (Or.inl ⟨some 2, rfl⟩) (by decide) (by decide)⟩

/-- Claim C2: the user turn is persisted strictly before the remote
analysis call is issued: when the user-turn write fails, the trace holds
no remote call, the exchange surfaces the formatted recoverable error and
releases the loading flag; when the user-turn write succeeds, the trace
begins with the user-turn write immediately followed by the remote call. -/
theorem user_turn_persisted_before_remote_call (rm : String → String)
    (env : StoreEnv) (u : Nat) (queryText : String) (prior : List ChatMsg)
    (isNewSession : Bool) (s : Session) (isLoading0 : Bool) (error0 : String) :
    let res := getAnalysis rm env (some u) queryText prior isNewSession (some s)
      isLoading0 error0;
    (∀ m, env.userWrite = some m →
      res.trace = [Action.addUserTurn queryText,
          Action.addErrorTurn ("Sorry, the analysis failed: " ++ m)]
        ∧ (∀ q h, Action.callAnalyze q h ∉ res.trace)
        ∧ res.error = "Sorry, the analysis failed: " ++ m
        ∧ res.isLoading = false)
    ∧ (env.userWrite = none →
        ∃ rest, res.trace = Action.addUserTurn queryText
          :: Action.callAnalyze queryText (prior.map (fun msg => (msg.sender, msg.text)))
          :: rest) := by
  intro res
  constructor
  · intro m hm
    have ht : res.trace = [Action.addUserTurn queryText,
        Action.addErrorTurn ("Sorry, the analysis failed: " ++ m)] := by
      simp [res, getAnalysis, hm, catchPath_trace]
    refine ⟨ht, ?_, ?_, ?_⟩
    · intro q h
      rw [ht]
      simp
    · simp [res, getAnalysis, hm, catchPath_error]
    · simp [res, getAnalysis, hm, catchPath_isLoading]
  · intro hu
    simp only [res]
    cases hf : env.fetchOutcome with
    | httpError d st =>
      exact ⟨[Action.addErrorTurn ("Sorry, the analysis failed: "
          ++ analysisFailMessage d st)],
        by simp [getAnalysis, hu, hf, catchPath_trace]⟩
    | transportError m =>
      exact ⟨[Action.addErrorTurn ("Sorry, the analysis failed: " ++ m)],
        by simp [getAnalysis, hu, hf, catchPath_trace]⟩
    | ok ans src =>
      cases hb : env.botWrite with
      | some m =>
        exact ⟨[Action.addBotTurn (rm ans) src,
          Action.addErrorTurn ("Sorry, the analysis failed: " ++ m)],
          by simp [getAnalysis, hu, hf, hb, catchPath_trace]⟩
      | none =>
        by_cases hcond : (isNewSession || prior.length == 0) = true
        · cases ht : env.titleWrite with
          | some m =>
            exact ⟨[Action.addBotTurn (rm ans) src,
              Action.setTitle (generateSessionTitle queryText),
              Action.addErrorTurn ("Sorry, the analysis failed: " ++ m)],
              by simp [getAnalysis, hu, hf, hb, hcond, ht, catchPath_trace]⟩
          | none =>
            exact ⟨[Action.addBotTurn (rm ans) src,
              Action.setTitle (generateSessionTitle queryText)],
              by simp [getAnalysis, hu, hf, hb, hcond, ht, catchPath_trace]⟩
        · simp only [Bool.not_eq_true] at hcond
          exact ⟨[Action.addBotTurn (rm ans) src],
            by simp [getAnalysis, hu, hf, hb, hcond, catchPath_trace]⟩

/-- Witness for C2: an exchange whose user-turn write throws with message
boom issues no remote call, surfaces the recoverable error, and releases
the loading flag. -/
theorem user_turn_persisted_before_remote_call_witness :
    (⟨some "boom", FetchOutcome.transportError "x", none, none, none⟩
        : StoreEnv).userWrite = some "boom"
    ∧ (let res := getAnalysis id
        ⟨some "boom", FetchOutcome.transportError "x", none, none, none⟩
        (some 0) "What is NATO expansion?" [] false
        (some ⟨"T", false, some 5, []⟩) false "";
      res.trace = [Action.addUserTurn "What is NATO expansion?",
          Action.addErrorTurn "Sorry, the analysis failed: boom"]
        ∧ (∀ q h, Action.callAnalyze q h ∉ res.trace)
        ∧ res.error = "Sorry, the analysis failed: boom"
        ∧ res.isLoading = false) :=
  ⟨rfl, (user_turn_persisted_before_remote_call id
      ⟨some "boom", FetchOutcome.transportError "x", none, none, none⟩
      0 "What is NATO expansion?" [] false ⟨"T", false, some 5, []⟩ false "").1
    "boom" rfl⟩

/-- Claim C3 (amended): in a session with zero prior messages, a fully
successful exchange leaves exactly two messages, the user turn then the
assistant turn in that order, and sets the session title to the generated
title of the raw input; the generated title differs from the placeholder
except for inputs whose generated title is itself the placeholder string. -/
theorem first_exchange_two_messages_titled (rm : String → String)
    (env : StoreEnv) (u : Nat) (queryText : String) (isNewSession : Bool)
    (s : Session) (isLoading0 : Bool) (error0 : String) (answer : String)
    (sources : Option (List Citation))
    (hu : env.userWrite = none)
    (hf : env.fetchOutcome = FetchOutcome.ok answer sources)
    (hb : env.botWrite = none)
    (ht : env.titleWrite = none)
    (hm : s.msgs = []) :
    let res := getAnalysis rm env (some u) queryText [] isNewSession (some s)
      isLoading0 error0;
    res.session = some { s with
        title := generateSessionTitle queryText
        msgs := [⟨"user", queryText, none⟩, ⟨"bot", rm answer, sources⟩] }
      ∧ res.isLoading = false ∧ res.error = "" := by
  intro res
  simp [res, getAnalysis, hu, hf, hb, ht, appendMsg, hm]

/-- Counterexample for C3 as stated: a fully successful first exchange on
the raw input new Analysis leaves two messages in order, yet the session
title equals the placeholder New Analysis, so the title does not always
differ from the placeholder. -/
theorem first_exchange_placeholder_title_cex :
    let res := getAnalysis id
      ⟨none, FetchOutcome.ok "It is ambiguous." none, none, none, none⟩
      (some 0) "new Analysis" [] false
      (some ⟨"New Analysis", false, none, []⟩) false "";
    res.session = some ⟨"New Analysis", false, none,
        [⟨"user", "new Analysis", none⟩, ⟨"bot", "It is ambiguous.", none⟩]⟩
      ∧ res.isLoading = false ∧ res.error = "" := by decide

/-- Witness for C3: a concrete successful first exchange produces the user
turn then the assistant turn and the generated title. -/
theorem first_exchange_two_messages_titled_witness :
    (⟨none, FetchOutcome.ok "Borders shifted." none, none, none, none⟩
        : StoreEnv).userWrite = none
    ∧ ((⟨"New Analysis", false, none, []⟩ : Session).msgs = [])
    ∧ (let res := getAnalysis id
        ⟨none, FetchOutcome.ok "Borders shifted." none, none, none, none⟩
        (some 0) "What is NATO expansion?" [] false
        (some ⟨"New Analysis", false, none, []⟩) false "";
      res.session = some ⟨"Is NATO expansion", false, none,
          [⟨"user", "What is NATO expansion?", none⟩,
           ⟨"bot", "Borders shifted.", none⟩]⟩
        ∧ res.isLoading = false ∧ res.error = "") :=
  ⟨rfl, rfl, first_exchange_two_messages_titled id
    ⟨none, FetchOutcome.ok "Borders shifted." none, none, none, none⟩
    0 "What is NATO expansion?" false ⟨"New Analysis", false, none, []⟩
    false "" "Borders shifted." none rfl rfl rfl rfl rfl⟩

/-- Claim C4: when the remote call fails with detail rate limited and the
secondary write commits, the exchange appends exactly the user turn plus
one synthetic assistant turn whose text contains rate limited, leaves the
session title unchanged (unconditionally, hence in particular when this
was not the first exchange), releases the loading flag, and surfaces the
same error. -/
theorem rate_limited_failure_visible (rm : String → String) (env : StoreEnv)
    (u : Nat) (queryText : String) (prior : List ChatMsg) (isNewSession : Bool)
    (s : Session) (isLoading0 : Bool) (error0 : String) (status : Nat)
    (hu : env.userWrite = none)
    (hf : env.fetchOutcome = FetchOutcome.httpError (some "rate limited") status)
    (he : env.errWrite = none) :
    let res := getAnalysis rm env (some u) queryText prior isNewSession (some s)
      isLoading0 error0;
    res.session = some { s with msgs := s.msgs ++
        [⟨"user", queryText, none⟩,
         ⟨"bot", "Sorry, the analysis failed: rate limited", none⟩] }
      ∧ Option.map Session.title res.session = some s.title
      ∧ res.isLoading = false
      ∧ res.error = "Sorry, the analysis failed: rate limited"
      ∧ (∃ pre post, "Sorry, the analysis failed: rate limited"
          = pre ++ "rate limited" ++ post) := by
  intro res
  have hmsg : analysisFailMessage (some "rate limited") status = "rate limited" := by
    unfold analysisFailMessage
    rw [if_neg (by decide)]
    rfl
  have hses : res.session = some { s with msgs := s.msgs ++
      [⟨"user", queryText, none⟩,
       ⟨"bot", "Sorry, the analysis failed: rate limited", none⟩] } := by
    simp [res, getAnalysis, hu, hf, hmsg, catchPath, he, appendMsg]
  refine ⟨hses, ?_, ?_, ?_, ?_⟩
  · rw [hses]
    rfl
  · simp [res, getAnalysis, hu, hf, catchPath_isLoading]
  · simp [res, getAnalysis, hu, hf, hmsg, catchPath_error]
  · exact ⟨"Sorry, the analysis failed: ", "", by decide⟩

/-- Witness for C4: a concrete rate-limited failure in a session with one
prior message appends the user turn and the synthetic failure turn and
keeps the old title. -/
theorem rate_limited_failure_visible_witness :
    (⟨none, FetchOutcome.httpError (some "rate limited") 429, none, none, none⟩
        : StoreEnv).userWrite = none
    ∧ (let res := getAnalysis id
        ⟨none, FetchOutcome.httpError (some "rate limited") 429, none, none, none⟩
        (some 0) "And now?" [⟨"user", "earlier", none⟩] false
        (some ⟨"Old title", false, some 7, [⟨"user", "earlier", none⟩]⟩) false "";
      res.session = some ⟨"Old title", false, some 7,
          [⟨"user", "earlier", none⟩, ⟨"user", "And now?", none⟩,
           ⟨"bot", "Sorry, the analysis failed: rate limited", none⟩]⟩
        ∧ Option.map Session.title res.session = some "Old title"
        ∧ res.isLoading = false
        ∧ res.error = "Sorry, the analysis failed: rate limited"
        ∧ (∃ pre post, "Sorry, the analysis failed: rate limited"
            = pre ++ "rate limited" ++ post)) :=
  ⟨rfl, rate_limited_failure_visible id
    ⟨none, FetchOutcome.httpError (some "rate limited") 429, none, none, none⟩
    0 "And now?" [⟨"user", "earlier", none⟩] false
    ⟨"Old title", false, some 7, [⟨"user", "earlier", none⟩]⟩ false "" 429
    rfl rfl rfl⟩

/-- Claim C5: a second submission issued to the same current session while
the first exchange is still in flight is rejected as a no-op rather than
queued: the run in which the second submission arrives before the first
exchange resolves equals the run without it, so only the first exchange's
turns and writes appear. -/
theorem second_submission_rejected (rm : String → String) (st : LoopState)
    (i1 i2 : String) (c1 c2 : Option String) (e1 e2 : StoreEnv) (s : Session)
    (h1 : jsTrim i1.data ≠ []) (h2 : jsTrim i2.data ≠ [])
    (hload : st.isLoading = false) (hsess : st.session? = some s) :
    runLoop rm st [LoopEv.submit i1 c1 e1, LoopEv.submit i2 c2 e2, LoopEv.complete]
      = runLoop rm st [LoopEv.submit i1 c1 e1, LoopEv.complete] := by
  simp only [runLoop, List.foldl_cons, List.foldl_nil, loopStep]
  rw [submitStep_of_isLoading i2 c2 e2 _
    (submitStep_starts_exchange i1 c1 e1 st s h1 hload hsess)]

/-- Witness for C5: two concrete non-blank submissions to the same
selected session, the second arriving before the first resolves, leave the
same state as the first submission alone. -/
theorem second_submission_rejected_witness :
    jsTrim ("What is NATO expansion?" : String).data ≠ []
    ∧ jsTrim ("And the Baltic states?" : String).data ≠ []
    ∧ (⟨some 0, false, "", some ⟨"T", false, some 3, []⟩, [], none, []⟩
        : LoopState).isLoading = false
    ∧ runLoop id ⟨some 0, false, "", some ⟨"T", false, some 3, []⟩, [], none, []⟩
        [LoopEv.submit "What is NATO expansion?" none
            ⟨none, FetchOutcome.ok "a" none, none, none, none⟩,
         LoopEv.submit "And the Baltic states?" none
            ⟨none, FetchOutcome.ok "b" none, none, none, none⟩,
         LoopEv.complete]
      = runLoop id ⟨some 0, false, "", some ⟨"T", false, some 3, []⟩, [], none, []⟩
        [LoopEv.submit "What is NATO expansion?" none
            ⟨none, FetchOutcome.ok "a" none, none, none, none⟩,
         LoopEv.complete] :=
  ⟨by decide, by decide, rfl,
    second_submission_rejected id
      ⟨some 0, false, "", some ⟨"T", false, some 3, []⟩, [], none, []⟩
      "What is NATO expansion?" "And the Baltic states?" none none
      ⟨none, FetchOutcome.ok "a" none, none, none, none⟩
      ⟨none, FetchOutcome.ok "b" none, none, none, none⟩
      ⟨"T", false, some 3, []⟩ (by decide) (by decide) rfl rfl⟩

/-- Claim C6 (amended): the title generator returns the empty string for
exactly those inputs whose trimmed text is non-empty but whose first
segment becomes empty after lead-word and question-mark stripping; for
every other input, including the empty input that yields the placeholder,
the result is non-empty. -/
theorem title_empty_characterization (s : String) :
    generateSessionTitle s = "" ↔ (jsTrim s.data ≠ [] ∧ cleanedSegment s = []) := by
  unfold generateSessionTitle
  by_cases h : jsTrim s.data = []
  · simp [h]
  · simp only [h, if_false, ne_eq, not_false_iff, true_and]
    by_cases hlen : (cleanedSegment s).length ≤ 40
    · simp only [hlen, if_true]
      rw [mk_eq_empty_iff]
      cases hseg : cleanedSegment s with
      | nil => simp [capitalizeFirst]
      | cons c rest => simp [capitalizeFirst]
    · simp only [hlen, if_false]
      constructor
      · intro habs
        have := congrArg String.length habs
        rw [String.length_append] at this
        simp at this
        exact absurd this.2 (by decide)
      · intro hseg
        rw [hseg] at hlen
        simp at hlen

/-- Counterexample for C6 as stated: the input consisting of one question
mark is not blank, yet the generated title is the empty string, not the
placeholder, so titles are not always non-empty. -/
theorem title_empty_on_question_mark_cex :
    generateSessionTitle "?" = "" := by decide

/-- Claim C7 (amended): the empty input yields the placeholder, and the
input What is NATO expansion? yields Is NATO expansion: only the single
lead word What is stripped together with the following whitespace, the
question mark disappears with sentence splitting, and the first remaining
character is capitalized. -/
theorem title_generator_examples :
    generateSessionTitle "" = "New Analysis"
    ∧ generateSessionTitle "What is NATO expansion?" = "Is NATO expansion" := by
  decide

/-- Counterexample for C7 as stated: the generated title of What is NATO
expansion? is Is NATO expansion, which differs from the specified NATO
expansion. -/
theorem lead_word_strip_cex :
    generateSessionTitle "What is NATO expansion?" = "Is NATO expansion"
    ∧ generateSessionTitle "What is NATO expansion?" ≠ "NATO expansion" := by
  decide

/-- Claim C8 (amended): for every input whose processed first segment
exceeds 40 characters, the generated title is the first 37 characters of
the segment with surrounding whitespace trimmed, followed by the three-dot
ellipsis marker; its total length is at most 40, and it falls short of 40
exactly when the trim removes trailing whitespace of the 37-character
prefix. -/
theorem truncation_trims_and_bounds (input : String)
    (h : 40 < (cleanedSegment input).length) :
    generateSessionTitle input
        = String.mk (jsTrim ((cleanedSegment input).take 37)) ++ "..."
      ∧ (generateSessionTitle input).length ≤ 40 := by
  have htrim : jsTrim input.data ≠ [] := by
    intro habs
    rw [cleanedSegment_of_trim_empty input habs] at h
    simp at h
  have heq : generateSessionTitle input
      = String.mk (jsTrim ((cleanedSegment input).take 37)) ++ "..." := by
    unfold generateSessionTitle
    simp [htrim, Nat.not_le.mpr h]
  refine ⟨heq, ?_⟩
  rw [heq, String.length_append]
  have h1 : (jsTrim ((cleanedSegment input).take 37)).length ≤ 37 := by
    calc (jsTrim ((cleanedSegment input).take 37)).length
        ≤ ((cleanedSegment input).take 37).length := jsTrim_length_le _
      _ ≤ 37 := by simp [List.length_take]
  have h2 : (String.mk (jsTrim ((cleanedSegment input).take 37))).length
      = (jsTrim ((cleanedSegment input).take 37)).length := rfl
  have h3 : ("..." : String).length = 3 := rfl
  omega

/-- Counterexample for C8 as stated: a 60-character input whose
37-character prefix ends in a space yields 36 characters plus the ellipsis
marker, total length 39, not 40. -/
theorem truncation_length_39_cex :
    ("aaaaaaaaaaaaaaaaaaaaaaaaaaaaaaaaaaaa bbbbbbbbbbbbbbbbbbbbbbb"
        : String).length = 60
    ∧ generateSessionTitle "aaaaaaaaaaaaaaaaaaaaaaaaaaaaaaaaaaaa bbbbbbbbbbbbbbbbbbbbbbb"
        = "aaaaaaaaaaaaaaaaaaaaaaaaaaaaaaaaaaaa..."
    ∧ (generateSessionTitle
        "aaaaaaaaaaaaaaaaaaaaaaaaaaaaaaaaaaaa bbbbbbbbbbbbbbbbbbbbbbb").length = 39 := by
  decide

/-- Witness for C8: the same 60-character input satisfies the length
hypothesis and the amended truncation equality and bound. -/
theorem truncation_trims_and_bounds_witness :
    40 < (cleanedSegment
        "aaaaaaaaaaaaaaaaaaaaaaaaaaaaaaaaaaaa bbbbbbbbbbbbbbbbbbbbbbb").length
    ∧ (generateSessionTitle "aaaaaaaaaaaaaaaaaaaaaaaaaaaaaaaaaaaa bbbbbbbbbbbbbbbbbbbbbbb"
          = String.mk (jsTrim ((cleanedSegment
              "aaaaaaaaaaaaaaaaaaaaaaaaaaaaaaaaaaaa bbbbbbbbbbbbbbbbbbbbbbb").take 37))
            ++ "..."
        ∧ (generateSessionTitle
            "aaaaaaaaaaaaaaaaaaaaaaaaaaaaaaaaaaaa bbbbbbbbbbbbbbbbbbbbbbb").length ≤ 40) :=
  ⟨by decide, truncation_trims_and_bounds
    "aaaaaaaaaaaaaaaaaaaaaaaaaaaaaaaaaaaa bbbbbbbbbbbbbbbbbbbbbbb" (by decide)⟩

/-- Claim C9: the session ordering places every pinned session before
every unpinned session, orders each pin group by descending resolved
timestamp with unresolved timestamps counted as the oldest sentinel, and
is idempotent: sorting a sorted list changes nothing. -/
theorem session_ordering_pinned_first_idempotent (l : List Session) :
    (sortedSessions l).Pairwise
      (fun a b => (b.isPinned = true → a.isPinned = true)
        ∧ (a.isPinned = b.isPinned → sessionMillis b ≤ sessionMillis a))
    ∧ sortedSessions (sortedSessions l) = sortedSessions l := by
  have hs := List.sorted_mergeSort sessionLe_trans sessionLe_total l
  constructor
  · exact hs.imp (fun {a b} h => sessionLe_imp a b h)
  · exact List.mergeSort_of_sorted hs

/-- Claim C10 (amended): a submission with no current session creates the
session document already carrying the title generated from the raw input
(which coincides with the placeholder only for inputs whose generated
title is itself the placeholder), and this title-bearing create is issued
strictly before the user-turn write, whatever the outcome of the
subsequent exchange. -/
theorem implicit_creation_generated_title_before_user_turn
    (rm : String → String) (st : LoopState) (input : String) (env : StoreEnv)
    (u : Nat)
    (h1 : jsTrim input.data ≠ []) (hload : st.isLoading = false)
    (hsess : st.session? = none) (huser : st.user? = some u) :
    let st1 := loopStep rm (LoopEv.submit input none env) st;
    let st2 := loopStep rm LoopEv.complete st1;
    st1.session? = some ⟨generateSessionTitle input, false, none, []⟩
      ∧ st1.writes = st.writes ++ [Action.createSessionDoc (generateSessionTitle input)]
      ∧ ∃ rest, st2.writes = st.writes
          ++ Action.createSessionDoc (generateSessionTitle input)
          :: Action.addUserTurn input :: rest := by
  intro st1 st2
  have hst1 : st1 = { st with
      session? := some ⟨generateSessionTitle input, false, none, []⟩,
      isLoading := true, error := "",
      pending := some ⟨input, env, true, st.messages⟩,
      writes := st.writes ++ [Action.createSessionDoc (generateSessionTitle input)] } := by
    simp [st1, loopStep, submitStep, h1, hload, hsess]
  refine ⟨by rw [hst1], by rw [hst1], ?_⟩
  obtain ⟨rest, hrest⟩ := getAnalysis_trace_head rm env u input st.messages true
    ⟨generateSessionTitle input, false, none, []⟩ true ""
  refine ⟨rest, ?_⟩
  have hst2 : st2.writes = st1.writes
      ++ (getAnalysis rm env (some u) input st.messages true
        (some ⟨generateSessionTitle input, false, none, []⟩) true "").trace := by
    simp [st2, loopStep, completeStep, hst1, huser]
  rw [hst2, hrest, hst1]
  simp

/-- Counterexample for C10 as stated: submitting the raw input new
Analysis with no current session creates the session document with title
New Analysis, which is exactly the default placeholder. -/
theorem implicit_creation_placeholder_cex :
    (loopStep id (LoopEv.submit "new Analysis" none
        ⟨none, FetchOutcome.ok "a" none, none, none, none⟩)
      ⟨some 0, false, "", none, [], none, []⟩).session?
      = some ⟨"New Analysis", false, none, []⟩ := by decide

/-- Witness for C10: a concrete submission with no current session creates
the document titled Is NATO expansion and only then issues the user-turn
write. -/
theorem implicit_creation_generated_title_before_user_turn_witness :
    jsTrim ("What is NATO expansion?" : String).data ≠ []
    ∧ (let st1 := loopStep id (LoopEv.submit "What is NATO expansion?" none
          ⟨none, FetchOutcome.ok "a" none, none, none, none⟩)
        ⟨some 0, false, "", none, [], none, []⟩;
      let st2 := loopStep id LoopEv.complete st1;
      st1.session? = some ⟨"Is NATO expansion", false, none, []⟩
        ∧ st1.writes = [] ++ [Action.createSessionDoc "Is NATO expansion"]
        ∧ ∃ rest, st2.writes = [] ++ Action.createSessionDoc "Is NATO expansion"
            :: Action.addUserTurn "What is NATO expansion?" :: rest) :=
  ⟨by decide, implicit_creation_generated_title_before_user_turn id
    ⟨some 0, false, "", none, [], none, []⟩ "What is NATO expansion?"
    ⟨none, FetchOutcome.ok "a" none, none, none, none⟩ 0
    (by decide) rfl rfl rfl⟩

end GeoCore
